import Mathlib

/-!
Shallow embedding of `src/lambda/lambda_function.py` (AWS Textract tutorial
Lambda handler) together with models of the Python standard-library
functions it calls (`json.loads`, `json.dumps`, `base64.b64decode`) and of
the Python exception classes that drive its control flow.  Exceptions are
modelled with `Except`; `raise` is `Except.error`, a `try/except` block is a
`match` on the result of the guarded computation.  Logging calls are pure
no-ops and are omitted.  The Textract client (`boto3.client('textract')`,
module scope) is modelled as an explicit function parameter `svc` giving the
behaviour of `detect_document_text` on each document source: it either
returns a value or raises an exception.
-/

/-- Characters written via code points so that no brace appears inside a
string literal. -/
def lbraceChar : Char := Char.ofNat 123

def rbraceChar : Char := Char.ofNat 125

def squoteChar : Char := Char.ofNat 39

def lbraceStr : String := String.singleton lbraceChar

def rbraceStr : String := String.singleton rbraceChar

def squoteStr : String := String.singleton squoteChar

/-- The universe of Python values that can appear in this handler's data
flow: everything the event, the parsed JSON body, and the (dict-shaped)
Textract response are built from.  JSON numbers with a fraction or exponent
part become Python floats; they are modelled as `fnum m e` standing for the
decimal `m * 10 ^ e` (the handler never inspects numeric values, so the
binary-float rounding Python performs is irrelevant to every theorem
below).  Objects are association lists in insertion order, with unique keys
(the parser updates in place on a duplicate key, as a Python dict does). -/
inductive JValue where
  | null
  | bool (b : Bool)
  | num (n : Int)
  | fnum (m : Int) (e : Int)
  | str (s : String)
  | arr (xs : List JValue)
  | obj (kvs : List (String × JValue))

/-- Last-write-wins insertion keeping first-insertion position: the update
behaviour of a Python dict, used by the JSON parser for duplicate keys. -/
def insertKV : List (String × JValue) → String → JValue → List (String × JValue)
  | [], k, v => [(k, v)]
  | (k0, v0) :: rest, k, v =>
      if k0 = k then (k0, v) :: rest else (k0, v0) :: insertKV rest k v

/-- Key lookup in a dict model (keys are unique by construction). -/
def jlookup : List (String × JValue) → String → Option JValue
  | [], _ => none
  | (k0, v0) :: rest, k => if k0 = k then some v0 else jlookup rest k

/-- Python truthiness (`bool(v)`) on the modelled values: `None`, `False`,
zero, the empty string/list/dict are falsy. -/
def isFalsy : JValue → Bool
  | .null => true
  | .bool b => !b
  | .num n => n = 0
  | .fnum m _ => m = 0
  | .str s => s.isEmpty
  | .arr xs => xs.isEmpty
  | .obj kvs => kvs.isEmpty

/-- Lower-case hex digit, as Python uses in `\uxxxx` escapes. -/
def hexDigitChar (n : Nat) : Char :=
  if n < 10 then Char.ofNat (48 + n) else Char.ofNat (87 + n)

/-- Four-hex-digit rendering of a code unit. -/
def hex4 (n : Nat) : String :=
  String.mk [hexDigitChar (n / 4096 % 16), hexDigitChar (n / 256 % 16),
    hexDigitChar (n / 16 % 16), hexDigitChar (n % 16)]

/-- Escape of one character as Python `json.dumps` (default
`ensure_ascii=True`) renders it inside a string literal: `"`, `\`, the
named control escapes, `\uxxxx` for everything outside `0x20`–`0x7e`
(surrogate pairs above the BMP). -/
def jsonEscChar (c : Char) : String :=
  if c = '"' then "\\\""
  else if c = '\\' then "\\\\"
  else if c = Char.ofNat 10 then "\\n"
  else if c = Char.ofNat 9 then "\\t"
  else if c = Char.ofNat 13 then "\\r"
  else if c = Char.ofNat 8 then "\\b"
  else if c = Char.ofNat 12 then "\\f"
  else if c.toNat < 32 ∨ c.toNat > 126 then
    if c.toNat < 65536 then "\\u" ++ hex4 c.toNat
    else
      let v := c.toNat - 65536
      "\\u" ++ hex4 (55296 + v / 1024) ++ "\\u" ++ hex4 (56320 + v % 1024)
  else String.singleton c

/-- A JSON string literal for `s`, per `json.dumps`. -/
def jsonQuote (s : String) : String :=
  "\"" ++ String.join (s.data.map jsonEscChar) ++ "\""

/-- Rendering of the float model: decimal `m * 10 ^ e`.  (Python prints the
`repr` of the nearest binary float; no claim below depends on the float
rendering, and only on integers does serialized output matter.) -/
def jsonDumpFloat (m e : Int) : String :=
  if 0 ≤ e then toString (m * (10 : Int) ^ e.toNat) ++ ".0"
  else toString m ++ "e-" ++ toString (-e)

mutual

/-- Model of `json.dumps` with default options (`ensure_ascii=True`, separators
`", "` and `": "`). -/
def jsonDumps : JValue → String
  | .null => "null"
  | .bool true => "true"
  | .bool false => "false"
  | .num n => toString n
  | .fnum m e => jsonDumpFloat m e
  | .str s => jsonQuote s
  | .arr xs => "[" ++ jsonDumpsArr xs ++ "]"
  | .obj kvs => lbraceStr ++ jsonDumpsObj kvs ++ rbraceStr

/-- Comma-joined serialization of array elements. -/
def jsonDumpsArr : List JValue → String
  | [] => ""
  | [x] => jsonDumps x
  | x :: y :: rest => jsonDumps x ++ ", " ++ jsonDumpsArr (y :: rest)

/-- Comma-joined serialization of object members. -/
def jsonDumpsObj : List (String × JValue) → String
  | [] => ""
  | [(k, v)] => jsonQuote k ++ ": " ++ jsonDumps v
  | (k, v) :: p :: rest =>
      jsonQuote k ++ ": " ++ jsonDumps v ++ ", " ++ jsonDumpsObj (p :: rest)

end

/-- JSON whitespace (the four characters `json.loads` skips). -/
def isWsChar (c : Char) : Bool :=
  c = ' ' || c = Char.ofNat 9 || c = Char.ofNat 10 || c = Char.ofNat 13

def skipWs : List Char → List Char
  | [] => []
  | c :: cs => if isWsChar c then skipWs cs else c :: cs

def hexVal (c : Char) : Option Nat :=
  if 48 ≤ c.toNat ∧ c.toNat ≤ 57 then some (c.toNat - 48)
  else if 97 ≤ c.toNat ∧ c.toNat ≤ 102 then some (c.toNat - 87)
  else if 65 ≤ c.toNat ∧ c.toNat ≤ 70 then some (c.toNat - 55)
  else none

def parseHex4 : List Char → Option (Nat × List Char)
  | a :: b :: c :: d :: rest =>
    match hexVal a, hexVal b, hexVal c, hexVal d with
    | some x, some y, some z, some w => some (((x * 16 + y) * 16 + z) * 16 + w, rest)
    | _, _, _, _ => none
  | _ => none

/-- One backslash escape inside a JSON string, as `json.loads` reads it.
`\uXXXX` surrogate pairs are combined; a lone surrogate (which Python keeps
as a lone surrogate code unit in its string) has no Lean `Char`
counterpart and collapses to `Char.ofNat`'s fallback — no claim below
inspects such a string's characters. -/
def escDecode (e : Char) (cs : List Char) : Option (Char × List Char) :=
  if e = '"' then some ('"', cs)
  else if e = '\\' then some ('\\', cs)
  else if e = '/' then some ('/', cs)
  else if e = 'b' then some (Char.ofNat 8, cs)
  else if e = 'f' then some (Char.ofNat 12, cs)
  else if e = 'n' then some (Char.ofNat 10, cs)
  else if e = 'r' then some (Char.ofNat 13, cs)
  else if e = 't' then some (Char.ofNat 9, cs)
  else if e = 'u' then
    match parseHex4 cs with
    | some (n1, rest1) =>
      if 55296 ≤ n1 ∧ n1 ≤ 56319 then
        match rest1 with
        | c1 :: c2 :: rest2 =>
          if c1 = '\\' ∧ c2 = 'u' then
            match parseHex4 rest2 with
            | some (n2, rest3) =>
              if 56320 ≤ n2 ∧ n2 ≤ 57343 then
                some (Char.ofNat (65536 + (n1 - 55296) * 1024 + (n2 - 56320)), rest3)
              else some (Char.ofNat n1, rest1)
            | none => some (Char.ofNat n1, rest1)
          else some (Char.ofNat n1, rest1)
        | _ => some (Char.ofNat n1, rest1)
      else some (Char.ofNat n1, rest1)
    | none => none
  else none

/-- Body of a JSON string after the opening quote: returns the decoded
characters and the input after the closing quote.  Raw control characters
are rejected (`json.loads` default `strict=True`).  Fuel is at least the
length of the input, so it never runs out. -/
def parseStrL : Nat → List Char → Option (List Char × List Char)
  | 0, _ => none
  | _ + 1, [] => none
  | n + 1, c :: cs =>
    if c = '"' then some ([], cs)
    else if c = '\\' then
      match cs with
      | [] => none
      | e :: cs2 =>
        match escDecode e cs2 with
        | none => none
        | some (ch, rest) =>
          match parseStrL n rest with
          | none => none
          | some (out, rem) => some (ch :: out, rem)
    else if c.toNat < 32 then none
    else
      match parseStrL n cs with
      | none => none
      | some (out, rem) => some (c :: out, rem)

def isDigitChar (c : Char) : Bool := 48 ≤ c.toNat && c.toNat ≤ 57

def spanDigits : List Char → List Char × List Char
  | [] => ([], [])
  | c :: cs =>
    if isDigitChar c then
      let (ds, rest) := spanDigits cs
      (c :: ds, rest)
    else ([], c :: cs)

def digitsVal (ds : List Char) : Nat := ds.foldl (fun a c => a * 10 + (c.toNat - 48)) 0

/-- Exponent part `[eE][+-]?digits` of a JSON number; returns `(0, cs)`
unchanged when absent or malformed (Python's regex then simply does not
match the group, leaving those characters unconsumed). -/
def parseExpPart (cs : List Char) : Int × List Char :=
  match cs with
  | c :: rest =>
    if c = 'e' ∨ c = 'E' then
      match rest with
      | s :: rest2 =>
        if s = '+' then
          let (ds, rest3) := spanDigits rest2
          if ds.isEmpty then (0, cs) else ((digitsVal ds : Int), rest3)
        else if s = '-' then
          let (ds, rest3) := spanDigits rest2
          if ds.isEmpty then (0, cs) else (-(digitsVal ds : Int), rest3)
        else
          let (ds, rest3) := spanDigits rest
          if ds.isEmpty then (0, cs) else ((digitsVal ds : Int), rest3)
      | [] => (0, cs)
    else (0, cs)
  | [] => (0, cs)

def stripToken : List Char → List Char → Option (List Char)
  | [], cs => some cs
  | _ :: _, [] => none
  | t :: ts, c :: cs => if c = t then stripToken ts cs else none

/-- A JSON number as Python's scanner reads it (regex
`(-?(?:0|[1-9]\d*))(\.\d+)?([eE][-+]?\d+)?`): an integer literal yields a
Python int (`num`), a fraction or exponent yields a float (`fnum`).
`-Infinity`, accepted by `json.loads`, yields a non-finite float, which the
model collapses to `fnum 0 0` — the handler never inspects numeric
values.  A leading `0` ends the integer part at once, so `01` parses as
`0` with `1` left over (which the top level then rejects as extra data,
exactly as Python does). -/
def parseNumber (cs : List Char) : Option (JValue × List Char) :=
  let (neg, cs1) :=
    match cs with
    | c :: rest => if c = '-' then (true, rest) else (false, cs)
    | [] => (false, cs)
  match stripToken "Infinity".data cs1 with
  | some rest => if neg then some (.fnum 0 0, rest) else none
  | none =>
    let (intDs, cs2) :=
      match cs1 with
      | c :: rest =>
        if c = '0' then ([c], rest)
        else if isDigitChar c then spanDigits (c :: rest)
        else ([], c :: rest)
      | [] => ([], cs1)
    if intDs.isEmpty then none
    else
      let (fracDs, cs3) :=
        match cs2 with
        | c :: rest =>
          if c = '.' then
            let (ds, rest2) := spanDigits rest
            if ds.isEmpty then (([] : List Char), cs2) else (ds, rest2)
          else ([], cs2)
        | [] => ([], cs2)
      let (expV, cs4) := parseExpPart cs3
      let sign : Int := if neg then -1 else 1
      if fracDs.isEmpty ∧ cs3 = cs4 then
        some (.num (sign * (digitsVal intDs : Int)), cs2)
      else
        some (.fnum (sign * (digitsVal (intDs ++ fracDs) : Int))
          (expV - (fracDs.length : Int)), cs4)

mutual

/-- One JSON value starting at `cs` (leading whitespace allowed), as
`json.loads`'s recursive-descent scanner reads it, with the non-standard
literals `NaN`, `Infinity`, `-Infinity` Python accepts by default
(collapsed to `fnum 0 0`; the handler never inspects numeric values). -/
def parseVal : Nat → List Char → Option (JValue × List Char)
  | 0, _ => none
  | n + 1, cs =>
    match skipWs cs with
    | [] => none
    | c :: rest =>
      if c = lbraceChar then
        match skipWs rest with
        | c2 :: rest2 =>
          if c2 = rbraceChar then some (.obj [], rest2)
          else parseMembers n (c2 :: rest2) []
        | [] => none
      else if c = '[' then
        match skipWs rest with
        | c2 :: rest2 =>
          if c2 = ']' then some (.arr [], rest2)
          else parseElems n (c2 :: rest2) []
        | [] => none
      else if c = '"' then
        match parseStrL (rest.length + 1) rest with
        | some (outChars, rem) => some (.str (String.mk outChars), rem)
        | none => none
      else if c = 't' then (stripToken "rue".data rest).map (fun r => (.bool true, r))
      else if c = 'f' then (stripToken "alse".data rest).map (fun r => (.bool false, r))
      else if c = 'n' then (stripToken "ull".data rest).map (fun r => (.null, r))
      else if c = 'N' then (stripToken "aN".data rest).map (fun r => (.fnum 0 0, r))
      else if c = 'I' then (stripToken "nfinity".data rest).map (fun r => (.fnum 0 0, r))
      else if c = '-' ∨ isDigitChar c then parseNumber (c :: rest)
      else none

/-- Object members after `{` (or after a `,`): a quoted key, `:`, a value,
then `,` to continue or `}` to finish.  Duplicate keys update in place
(Python dict semantics). -/
def parseMembers : Nat → List Char → List (String × JValue) →
    Option (JValue × List Char)
  | 0, _, _ => none
  | n + 1, cs, acc =>
    match skipWs cs with
    | [] => none
    | c :: rest =>
      if c = '"' then
        match parseStrL (rest.length + 1) rest with
        | none => none
        | some (kcs, rem) =>
          match skipWs rem with
          | [] => none
          | c2 :: rem2 =>
            if c2 = ':' then
              match parseVal n rem2 with
              | none => none
              | some (v, rem3) =>
                let acc2 := insertKV acc (String.mk kcs) v
                match skipWs rem3 with
                | [] => none
                | c3 :: rem4 =>
                  if c3 = ',' then parseMembers n rem4 acc2
                  else if c3 = rbraceChar then some (.obj acc2, rem4)
                  else none
            else none
      else none

/-- Array elements after `[` (or after a `,`): a value, then `,` to
continue or `]` to finish. -/
def parseElems : Nat → List Char → List JValue → Option (JValue × List Char)
  | 0, _, _ => none
  | n + 1, cs, acc =>
    match parseVal n cs with
    | none => none
    | some (v, rem) =>
      match skipWs rem with
      | [] => none
      | c :: rem2 =>
        if c = ',' then parseElems n rem2 (acc ++ [v])
        else if c = ']' then some (.arr (acc ++ [v]), rem2)
        else none

end

/-- Model of Python `json.loads` on a string: parse one value, then require
only whitespace to remain (anything else is the `Extra data` error).  The
fuel bound exceeds any possible recursion depth, since every recursive
call first consumes at least one character. -/
def jsonParse (s : String) : Option JValue :=
  match parseVal (s.data.length * 2 + 4) s.data with
  | some (v, rest) => if (skipWs rest).isEmpty then some v else none
  | none => none

/-- The Python exception classes live in this handler's control flow.
`json.JSONDecodeError` and `binascii.Error` are subclasses of `ValueError`
in Python, which `isValueError` reflects; `botocore.ClientError` is not. -/
inductive PyExc where
  | valueError (msg : String)
  | jsonDecodeError (msg : String)
  | binasciiError (msg : String)
  | typeError (msg : String)
  | keyError (key : String)
  | attributeError (msg : String)
  | clientError (msg : String)
  | otherError (msg : String)
deriving DecidableEq

/-- Test `isinstance(e, ValueError)`: `json.JSONDecodeError` and
`binascii.Error` both derive from `ValueError`. -/
def PyExc.isValueError : PyExc → Bool
  | .valueError _ => true
  | .jsonDecodeError _ => true
  | .binasciiError _ => true
  | _ => false

/-- Test `isinstance(e, KeyError)`. -/
def PyExc.isKeyError : PyExc → Bool
  | .keyError _ => true
  | _ => false

/-- Test `isinstance(e, botocore.exceptions.ClientError)`. -/
def PyExc.isClientError : PyExc → Bool
  | .clientError _ => true
  | _ => false

/-- Model of `str(e)`: the message (for `KeyError`, Python shows the repr of the
missing key, i.e. the quoted key). -/
def PyExc.pyStr : PyExc → String
  | .valueError m => m
  | .jsonDecodeError m => m
  | .binasciiError m => m
  | .typeError m => m
  | .keyError k => squoteStr ++ k ++ squoteStr
  | .attributeError m => m
  | .clientError m => m
  | .otherError m => m

/-- Whether `needle` occurs at the head of `hay`. -/
def subAt : List Char → List Char → Bool
  | [], _ => true
  | _ :: _, [] => false
  | a :: as, b :: bs => a = b && subAt as bs

/-- Whether `needle` occurs somewhere in `hay` (Python `in` on strings). -/
def hasSub (needle hay : List Char) : Bool :=
  subAt needle hay ||
    match hay with
    | [] => false
    | _ :: tl => hasSub needle tl

/-- The Python `in` operator `key in v` for a string key: key membership on
a dict, element membership on a list, substring test on a string, and a
`TypeError` on non-containers. -/
def pyContains (v : JValue) (key : String) : Except PyExc Bool :=
  match v with
  | .obj kvs => .ok (jlookup kvs key).isSome
  | .arr xs => .ok (xs.any (fun x => match x with | .str s => s = key | _ => false))
  | .str s => .ok (hasSub key.data s.data)
  | _ => .error (.typeError "argument of type is not iterable")

/-- Python subscript `v[key]` for a string key: dict lookup (raising
`KeyError` on a missing key) and a `TypeError` on every non-dict (string
and list subscripts require integers; numbers, booleans and `None` are not
subscriptable at all). -/
def pyGetItem (v : JValue) (key : String) : Except PyExc JValue :=
  match v with
  | .obj kvs =>
    match jlookup kvs key with
    | some x => .ok x
    | none => .error (.keyError key)
  | .str _ => .error (.typeError "string indices must be integers")
  | .arr _ => .error (.typeError "list indices must be integers or slices, not str")
  | _ => .error (.typeError "object is not subscriptable")

/-- Python `v.encode('utf-8')`: defined on strings (the byte level is not
modelled — the base64 alphabet is ASCII, so decoding a string's characters
and decoding its UTF-8 bytes discard the same junk); every other value has
no `encode` attribute and raises `AttributeError`. -/
def pyEncodeUtf8 (v : JValue) : Except PyExc String :=
  match v with
  | .str s => .ok s
  | _ => .error (.attributeError "object has no attribute encode")

/-- Index of a character in the standard base64 alphabet. -/
def b64digit (c : Char) : Option Nat :=
  let n := c.toNat
  if 65 ≤ n ∧ n ≤ 90 then some (n - 65)
  else if 97 ≤ n ∧ n ≤ 122 then some (n - 71)
  else if 48 ≤ n ∧ n ≤ 57 then some (n + 4)
  else if c = '+' then some 62
  else if c = '/' then some 63
  else none

/-- Three bytes from a full quad of sextets. -/
def b64EmitQuad (a b c d : Nat) : List Nat :=
  [a * 4 + b / 16, b % 16 * 16 + c / 4, c % 4 * 64 + d]

/-- The bytes recoverable from a partial quad ended by padding: two sextets
give one byte, three give two. -/
def b64EmitPart : List Nat → List Nat
  | [a, b] => [a * 4 + b / 16]
  | [a, b, c] => [a * 4 + b / 16, b % 16 * 16 + c / 4]
  | _ => []

/-- The scanning loop of CPython `binascii.a2b_base64` in non-strict mode
(what `base64.b64decode(data)` runs): characters outside the alphabet are
discarded; a data character resets the padding count; `=` is ignored
unless at least two sextets are pending and enough `=` have accumulated to
complete the quad, in which case decoding stops and emits the partial
quad; leftover sextets at end of input are an error (`Incorrect padding`,
or the data-character count error for a single leftover sextet). -/
def b64Loop : List Char → List Nat → Nat → List Nat → Option (List Nat)
  | [], quad, _, out =>
    match quad with
    | [] => some out
    | _ => none
  | c :: cs, quad, pads, out =>
    if c = '=' then
      if 2 ≤ quad.length ∧ 4 ≤ quad.length + pads + 1 then
        some (out ++ b64EmitPart quad)
      else b64Loop cs quad (pads + 1) out
    else
      match b64digit c with
      | none => b64Loop cs quad pads out
      | some d =>
        match quad with
        | [a, b, c2] => b64Loop cs [] 0 (out ++ b64EmitQuad a b c2 d)
        | _ => b64Loop cs (quad ++ [d]) 0 out

/-- Model of Python `base64.b64decode` (default `validate=False`) on the
UTF-8 encoding of `s`, returning the decoded bytes or `none` where Python
raises `binascii.Error`. -/
def pyB64Decode (s : String) : Option (List Nat) := b64Loop s.data [] 0 []

/-- The canonical document source passed to Textract: exactly one of
inline bytes (`{'Bytes': ...}`) or an S3 reference
(`{'S3Object': {'Bucket': ..., 'Name': ...}}`, exactly those two
fields). -/
inductive DocumentSource where
  | bytes (bs : List Nat)
  | s3Object (bucket name : JValue)

/-- One behaviour of `textract_client.detect_document_text` on one call:
it returns a value or raises an exception. -/
inductive SvcResult where
  | retVal (resp : JValue)
  | raiseExc (e : PyExc)

/-- The response envelope the handler returns to its caller. -/
structure Response where
  statusCode : Nat
  headers : List (String × String)
  body : String
deriving DecidableEq

def ctJsonHeaders : List (String × String) := [("Content-Type", "application/json")]

/-- Function `error_response(status_code, error_type, message)` of the source:
the envelope with the given status code, the JSON content type, and a body
serializing exactly the keys `Error` and `ErrorMessage`. -/
def error_response (status_code : Nat) (error_type message : String) : Response :=
  { statusCode := status_code
    headers := ctJsonHeaders
    body := jsonDumps (.obj [("Error", .str error_type), ("ErrorMessage", .str message)]) }

/-- The 200 envelope built at lines 70–74 of the source. -/
def successResponse (blocks : JValue) : Response :=
  { statusCode := 200
    headers := ctJsonHeaders
    body := jsonDumps (.obj [("Blocks", blocks)]) }

def missingBodyMsg : String := "Missing request body"

def badB64Msg : String := "Invalid base64 image encoding"

def s3StructureMsg : String :=
  "Invalid S3Object structure, required: " ++ squoteStr ++ "Bucket" ++ squoteStr ++
    " and " ++ squoteStr ++ "Name" ++ squoteStr

def invalidInputMsg : String :=
  "Invalid input: Provide " ++ squoteStr ++ "image" ++ squoteStr ++
    " as base64 or " ++ squoteStr ++ "S3Object" ++ squoteStr ++ " with bucket and name"

def textractErrMsg : String := "Error processing document with Textract"

def unexpectedErrMsg : String := "Unexpected error occurred while processing document"

def internalErrMsg : String := "An internal error occurred. Check logs for details."

/-- Lines 28–29: `if 'body' not in event or not event['body']: raise
ValueError("Missing request body")`, otherwise the body value (the
subscript cannot fail on a dict here, but on a non-dict event the `in`
test or the subscript raises exactly as Python does). -/
def getBody (event : JValue) : Except PyExc JValue :=
  match pyContains event "body" with
  | .error e => .error e
  | .ok present =>
    if !present then .error (.valueError missingBodyMsg)
    else
      match pyGetItem event "body" with
      | .error e => .error e
      | .ok v =>
        if isFalsy v then .error (.valueError missingBodyMsg)
        else .ok v

/-- Line 31: `json.loads(event['body'])`.  On a non-string the real
`json.loads` raises `TypeError`; on an unparsable string it raises
`json.JSONDecodeError` (a `ValueError` subclass).  The positional detail
Python puts in the decode-error message is abstracted to a fixed text. -/
def jsonLoads (v : JValue) : Except PyExc JValue :=
  match v with
  | .str s =>
    match jsonParse s with
    | some rb => .ok rb
    | none => .error (.jsonDecodeError "Expecting value")
  | _ => .error (.typeError "the JSON object must be str, bytes or bytearray")

/-- The body of the `try` at lines 36–39: `request_body['image']` (cannot
fail, the key is present), `.encode('utf-8')` (raises `AttributeError` on
a non-string), `base64.b64decode(...)` (raises `binascii.Error` where the
model returns `none`). -/
def imageTry (rb : JValue) : Except PyExc (List Nat) :=
  match pyGetItem rb "image" with
  | .error e => .error e
  | .ok v =>
    match pyEncodeUtf8 v with
    | .error e => .error e
    | .ok s =>
      match pyB64Decode s with
      | some bs => .ok bs
      | none => .error (.binasciiError "Incorrect padding")

/-- The body of the `try` at lines 46–49:
`request_body['S3Object']['Bucket']` and `...['Name']`. -/
def s3Try (rb : JValue) : Except PyExc (JValue × JValue) :=
  match pyGetItem rb "S3Object" with
  | .error e => .error e
  | .ok s3 =>
    match pyGetItem s3 "Bucket" with
    | .error e => .error e
    | .ok b =>
      match pyGetItem s3 "Name" with
      | .error e => .error e
      | .ok n => .ok (b, n)

/-- Lines 34–55: source resolution.  The `image` branch catches every
exception and re-raises `ValueError("Invalid base64 image encoding")`;
the `S3Object` branch catches only `KeyError` (anything else — e.g. a
`TypeError` from subscripting a non-dict — propagates); with neither key a
`ValueError` invites the caller to provide one. -/
def resolveSource (rb : JValue) : Except PyExc DocumentSource :=
  match pyContains rb "image" with
  | .error e => .error e
  | .ok true =>
    match imageTry rb with
    | .ok bs => .ok (.bytes bs)
    | .error _ => .error (.valueError badB64Msg)
  | .ok false =>
    match pyContains rb "S3Object" with
    | .error e => .error e
    | .ok true =>
      match s3Try rb with
      | .ok (b, n) => .ok (.s3Object b n)
      | .error e =>
        if e.isKeyError then .error (.valueError s3StructureMsg)
        else .error e
    | .ok false => .error (.valueError invalidInputMsg)

/-- The body of the `try` at lines 58–61: the Textract call, then
`response.get('Blocks', [])` — dict lookup with an empty-list default, an
`AttributeError` if the response is not a dict. -/
def textractTry (svc : DocumentSource → SvcResult) (src : DocumentSource) :
    Except PyExc JValue :=
  match svc src with
  | .raiseExc e => .error e
  | .retVal resp =>
    match resp with
    | .obj kvs =>
      .ok (match jlookup kvs "Blocks" with
        | some v => v
        | none => .arr [])
    | _ => .error (.attributeError "object has no attribute get")

/-- Lines 58–67: `except ClientError` re-raises
`ValueError("Error processing document with Textract")`; `except
Exception` re-raises `ValueError("Unexpected error occurred while
processing document")`. -/
def callService (svc : DocumentSource → SvcResult) (src : DocumentSource) :
    Except PyExc JValue :=
  match textractTry svc src with
  | .ok blocks => .ok blocks
  | .error e =>
    if e.isClientError then .error (.valueError textractErrMsg)
    else .error (.valueError unexpectedErrMsg)

/-- The body of the outer `try` (lines 24–74): body check, JSON parse,
source resolution, Textract call, 200 response.  `Except.error` is an
exception propagating out of the `try`. -/
def handlerCore (svc : DocumentSource → SvcResult) (event : JValue) :
    Except PyExc Response :=
  match getBody event with
  | .error e => .error e
  | .ok bodyVal =>
    match jsonLoads bodyVal with
    | .error e => .error e
    | .ok rb =>
      match resolveSource rb with
      | .error e => .error e
      | .ok src =>
        match callService svc src with
        | .error e => .error e
        | .ok blocks => .ok (successResponse blocks)

/-- Lines 76–82: `except ValueError` → 400 with `str(e)`, `except
Exception` → 500 with the generic message. -/
def dispatchResult (r : Except PyExc Response) : Response :=
  match r with
  | .ok resp => resp
  | .error e =>
    if e.isValueError then error_response 400 "ValueError" e.pyStr
    else error_response 500 "InternalServerError" internalErrMsg

/-- Model of `lambda_handler(event, context)` with the process-wide Textract client
abstracted as the behaviour function `svc` (`context` is unused by the
source). -/
def lambda_handler (svc : DocumentSource → SvcResult) (event : JValue) : Response :=
  dispatchResult (handlerCore svc event)

/-- The envelope the handler produces once a document source has been
resolved: the remaining computation of `lambda_handler` from the Textract
call on.  `lambda_handler` reaching the downstream call with source `src`
is expressed as equality with `afterSource svc src`. -/
def afterSource (svc : DocumentSource → SvcResult) (src : DocumentSource) : Response :=
  dispatchResult
    (match callService svc src with
     | .error e => .error e
     | .ok blocks => .ok (successResponse blocks))

/-- A stub downstream behaviour: always returns a dict with an empty
`Blocks` list.  Used to instantiate theorems at concrete inputs. -/
def svcStub : DocumentSource → SvcResult :=
  fun _ => .retVal (.obj [("Blocks", .arr [])])

/-- A stub downstream behaviour that always raises a `ClientError`. -/
def svcClientErr : DocumentSource → SvcResult := fun _ => .raiseExc (.clientError "denied")

/-- A stub downstream behaviour that always raises a non-`ClientError`
exception. -/
def svcOther : DocumentSource → SvcResult := fun _ => .raiseExc (.otherError "boom")

/-- A stub downstream behaviour returning one block. -/
def svcBlocks : DocumentSource → SvcResult :=
  fun _ => .retVal (.obj [("Blocks", .arr [.obj [("Text", .str "hi")]])])

/-- A stub downstream behaviour whose response dict has no `Blocks` key. -/
def svcNoBlocks : DocumentSource → SvcResult := fun _ => .retVal (.obj [("Meta", .num 1)])

/-- The malformed body string of the spec's example: an opening brace
followed by `not json`. -/
def badJsonBody : String := lbraceStr ++ "not json"

/-- A concrete event whose body carries a valid base64 image. -/
def evImage : JValue :=
  .obj [("body", .str (lbraceStr ++ "\"image\": \"aGVsbG8=\"" ++ rbraceStr))]

/-- A concrete event whose body carries a string that `b64decode`
rejects. -/
def evBadB64 : JValue :=
  .obj [("body", .str (lbraceStr ++ "\"image\": \"not_valid_base64!!\"" ++ rbraceStr))]

/-- A concrete event whose body has an `S3Object` missing `Name`. -/
def evS3Missing : JValue :=
  .obj [("body", .str (lbraceStr ++ "\"S3Object\": " ++ lbraceStr ++ "\"Bucket\": \"b\"" ++
    rbraceStr ++ rbraceStr))]

/-- A concrete event whose body has a complete `S3Object`. -/
def evS3Full : JValue :=
  .obj [("body", .str (lbraceStr ++ "\"S3Object\": " ++ lbraceStr ++
    "\"Bucket\": \"b\", \"Name\": \"n\"" ++ rbraceStr ++ rbraceStr))]

/-- A concrete event whose body maps `S3Object` to a string rather than a
mapping. -/
def evS3NotMap : JValue :=
  .obj [("body", .str (lbraceStr ++ "\"S3Object\": \"oops\"" ++ rbraceStr))]

/-- Every `Except.ok` exit of the outer `try` body is the 200 success
envelope: the only `return` inside the `try` is at lines 70–74. -/
theorem handlerCore_ok_shape {svc : DocumentSource → SvcResult} {ev : JValue}
    {r : Response} (h : handlerCore svc ev = .ok r) :
    ∃ blocks, r = successResponse blocks := by
  unfold handlerCore at h
  repeat' split at h
  all_goals simp_all
  exact ⟨_, h.symm⟩

/-- Every envelope `lambda_handler` returns is the success envelope, a 400
`ValueError` envelope, or the fixed 500 `InternalServerError` envelope —
the two `except` clauses at lines 76–82 build every non-200 response
through `error_response`. -/
theorem lambda_handler_cases (svc : DocumentSource → SvcResult) (ev : JValue) :
    (∃ b, lambda_handler svc ev = successResponse b) ∨
    (∃ m, lambda_handler svc ev = error_response 400 "ValueError" m) ∨
    lambda_handler svc ev = error_response 500 "InternalServerError" internalErrMsg := by
  unfold lambda_handler dispatchResult
  cases h : handlerCore svc ev with
  | ok r =>
    obtain ⟨b, rfl⟩ := handlerCore_ok_shape h
    exact Or.inl ⟨b, rfl⟩
  | error e =>
    cases he : e.isValueError with
    | true => exact Or.inr (Or.inl ⟨e.pyStr, by simp [he]⟩)
    | false => exact Or.inr (Or.inr (by simp [he]))

/-- C1, counterexample: on an event whose body is the non-empty, non-JSON
string of the spec's own example (`lbraceStr ++ "not json"`), the handler
returns status 400 with Error kind `ValueError`, not the claimed 500
`InternalServerError`: `json.JSONDecodeError` is a subclass of
`ValueError` in Python, so the parse failure is caught by the
`except ValueError` branch at line 76, never reaching the outer fallback.
(The envelope's message text is the model's abstraction of Python's
positional decode-error message.) -/
theorem claim_C1_counterexample :
    (lambda_handler svcStub (.obj [("body", .str badJsonBody)])).statusCode = 400 ∧
    (lambda_handler svcStub (.obj [("body", .str badJsonBody)])).statusCode ≠ 500 ∧
    lambda_handler svcStub (.obj [("body", .str badJsonBody)]) =
      error_response 400 "ValueError" "Expecting value" :=
  ⟨rfl, by decide, rfl⟩

/-- C1, amended: for every invocation event whose body string is present
and non-empty (so the body check passes) but is not valid JSON, the
handler returns a `ResponseEnvelope` with statusCode 400 and Error kind
`ValueError` — the parse failure is caught by the `except ValueError`
branch (since `json.JSONDecodeError` derives from `ValueError`), not by
the outer fallback. -/
theorem claim_C1 (svc : DocumentSource → SvcResult) (ev : JValue) (s : String)
    (hb : getBody ev = .ok (.str s)) (hp : jsonParse s = none) :
    ∃ msg, lambda_handler svc ev = error_response 400 "ValueError" msg := by
  refine ⟨"Expecting value", ?_⟩
  unfold lambda_handler handlerCore dispatchResult jsonLoads
  rw [hb]
  simp [hp, PyExc.isValueError, PyExc.pyStr]

/-- C1, witness: the amended theorem applied at the concrete malformed
body, with both hypotheses discharged by evaluation. -/
theorem claim_C1_witness :
    getBody (.obj [("body", .str badJsonBody)]) = .ok (.str badJsonBody) ∧
    jsonParse badJsonBody = none ∧
    ∃ msg, lambda_handler svcStub (.obj [("body", .str badJsonBody)]) =
      error_response 400 "ValueError" msg :=
  ⟨rfl, rfl, claim_C1 svcStub (.obj [("body", .str badJsonBody)]) badJsonBody rfl rfl⟩

/-- C2: for every invocation event and every downstream behaviour (any
returned value, any raised exception), the handler returns an envelope
with a status code in \x7b200, 400, 500\x7d, the
`Content-Type: application/json` header, and a body that is the JSON
serialization of some value; being a total Lean function of type
`Response`, it propagates no exception to its caller. -/
theorem claim_C2 (svc : DocumentSource → SvcResult) (ev : JValue) :
    ((lambda_handler svc ev).statusCode = 200 ∨ (lambda_handler svc ev).statusCode = 400 ∨
      (lambda_handler svc ev).statusCode = 500) ∧
    (lambda_handler svc ev).headers = ctJsonHeaders ∧
    ∃ j : JValue, (lambda_handler svc ev).body = jsonDumps j := by
  rcases lambda_handler_cases svc ev with ⟨b, h⟩ | ⟨m, h⟩ | h <;> rw [h]
  · exact ⟨Or.inl rfl, rfl, ⟨.obj [("Blocks", b)], rfl⟩⟩
  · exact ⟨Or.inr (Or.inl rfl), rfl,
      ⟨.obj [("Error", .str "ValueError"), ("ErrorMessage", .str m)], rfl⟩⟩
  · exact ⟨Or.inr (Or.inr rfl), rfl,
      ⟨.obj [("Error", .str "InternalServerError"), ("ErrorMessage", .str internalErrMsg)], rfl⟩⟩

/-- C3: for every parsed request body (a dict) whose `image` key maps to a
string, the handler base64-decodes that string; if decoding fails it
returns 400 with Error `ValueError` and message
`Invalid base64 image encoding`, and if decoding succeeds the result is
exactly the remaining computation on `DocumentSource.bytes` of the decoded
bytes — i.e. the downstream service is invoked with those bytes. -/
theorem claim_C3 (svc : DocumentSource → SvcResult) (ev : JValue) (s : String)
    (kvs : List (String × JValue)) (imgs : String)
    (hb : getBody ev = .ok (.str s))
    (hp : jsonParse s = some (.obj kvs))
    (hi : jlookup kvs "image" = some (.str imgs)) :
    (pyB64Decode imgs = none →
      lambda_handler svc ev = error_response 400 "ValueError" badB64Msg) ∧
    (∀ bs, pyB64Decode imgs = some bs →
      lambda_handler svc ev = afterSource svc (.bytes bs)) := by
  constructor
  · intro hd
    unfold lambda_handler handlerCore dispatchResult jsonLoads resolveSource imageTry
      pyContains pyGetItem pyEncodeUtf8
    rw [hb]
    simp [hp, hi, hd, PyExc.isValueError, PyExc.pyStr]
  · intro bs hd
    unfold lambda_handler handlerCore dispatchResult jsonLoads resolveSource imageTry
      pyContains pyGetItem pyEncodeUtf8 afterSource
    rw [hb]
    simp [hp, hi, hd]
    rfl

/-- C3, witness: `aGVsbG8=` decodes to the bytes of `hello` and routes the
handler to the downstream call on those bytes; `not_valid_base64!!` fails
to decode and yields the 400 envelope. -/
theorem claim_C3_witness :
    pyB64Decode "aGVsbG8=" = some [104, 101, 108, 108, 111] ∧
    lambda_handler svcStub evImage = afterSource svcStub (.bytes [104, 101, 108, 108, 111]) ∧
    pyB64Decode "not_valid_base64!!" = none ∧
    lambda_handler svcStub evBadB64 = error_response 400 "ValueError" badB64Msg :=
  ⟨rfl,
    (claim_C3 svcStub evImage _ [("image", .str "aGVsbG8=")] "aGVsbG8=" rfl rfl rfl).2 _ rfl,
    rfl,
    (claim_C3 svcStub evBadB64 _ [("image", .str "not_valid_base64!!")] "not_valid_base64!!"
      rfl rfl rfl).1 rfl⟩

/-- C4: for every parsed request body (a dict) without the `image` key
whose `S3Object` key maps to a dict, a missing `Bucket` or `Name` yields
400 with the `Invalid S3Object structure` message, and when both are
present the handler proceeds to the downstream call with
`DocumentSource.s3Object bucket name` — exactly those two fields. -/
theorem claim_C4 (svc : DocumentSource → SvcResult) (ev : JValue) (s : String)
    (kvs s3kvs : List (String × JValue))
    (hb : getBody ev = .ok (.str s))
    (hp : jsonParse s = some (.obj kvs))
    (hni : jlookup kvs "image" = none)
    (hs3 : jlookup kvs "S3Object" = some (.obj s3kvs)) :
    ((jlookup s3kvs "Bucket" = none ∨ jlookup s3kvs "Name" = none) →
      lambda_handler svc ev = error_response 400 "ValueError" s3StructureMsg) ∧
    (∀ b n, jlookup s3kvs "Bucket" = some b → jlookup s3kvs "Name" = some n →
      lambda_handler svc ev = afterSource svc (.s3Object b n)) := by
  constructor
  · intro hmiss
    unfold lambda_handler handlerCore dispatchResult jsonLoads resolveSource s3Try
      pyContains pyGetItem
    rw [hb]
    rcases hmiss with hm | hm
    · simp [hp, hni, hs3, hm, PyExc.isKeyError, PyExc.isValueError, PyExc.pyStr]
    · cases hbk : jlookup s3kvs "Bucket" with
      | none => simp [hp, hni, hs3, hbk, PyExc.isKeyError, PyExc.isValueError, PyExc.pyStr]
      | some b => simp [hp, hni, hs3, hbk, hm, PyExc.isKeyError, PyExc.isValueError, PyExc.pyStr]
  · intro b n hbk hnm
    unfold lambda_handler handlerCore dispatchResult jsonLoads resolveSource s3Try
      pyContains pyGetItem afterSource
    rw [hb]
    simp [hp, hni, hs3, hbk, hnm]
    rfl

/-- C4, witness: the theorem applied at a body missing `Name` (400
envelope) and at a complete `S3Object` body (downstream invoked with that
bucket and name). -/
theorem claim_C4_witness :
    lambda_handler svcStub evS3Missing = error_response 400 "ValueError" s3StructureMsg ∧
    lambda_handler svcStub evS3Full = afterSource svcStub (.s3Object (.str "b") (.str "n")) :=
  ⟨(claim_C4 svcStub evS3Missing _ [("S3Object", .obj [("Bucket", .str "b")])]
      [("Bucket", .str "b")] rfl rfl rfl rfl).1 (Or.inr rfl),
    (claim_C4 svcStub evS3Full _ [("S3Object", .obj [("Bucket", .str "b"), ("Name", .str "n")])]
      [("Bucket", .str "b"), ("Name", .str "n")] rfl rfl rfl rfl).2 _ _ rfl rfl⟩

/-- C5: for every request that resolves to a well-formed document source,
a downstream `ClientError` yields 400 `ValueError` with message
`Error processing document with Textract`, and every other exception the
downstream call raises yields 400 `ValueError` with message
`Unexpected error occurred while processing document`. -/
theorem claim_C5 (svc : DocumentSource → SvcResult) (ev : JValue) (s : String)
    (rb : JValue) (src : DocumentSource)
    (hb : getBody ev = .ok (.str s))
    (hp : jsonParse s = some rb)
    (hr : resolveSource rb = .ok src) :
    (∀ m, svc src = .raiseExc (.clientError m) →
      lambda_handler svc ev = error_response 400 "ValueError" textractErrMsg) ∧
    (∀ e, svc src = .raiseExc e → e.isClientError = false →
      lambda_handler svc ev = error_response 400 "ValueError" unexpectedErrMsg) := by
  constructor
  · intro m hsvc
    unfold lambda_handler handlerCore dispatchResult jsonLoads callService textractTry
    rw [hb]
    simp [hp, hr, hsvc, PyExc.isClientError, PyExc.isValueError, PyExc.pyStr]
  · intro e hsvc hnc
    unfold lambda_handler handlerCore dispatchResult jsonLoads callService textractTry
    rw [hb]
    simp [hp, hr, hsvc, hnc, PyExc.isValueError, PyExc.pyStr]

/-- C5, witness: the theorem applied at the concrete image event against a
`ClientError`-raising downstream and against a downstream raising a
generic exception. -/
theorem claim_C5_witness :
    lambda_handler svcClientErr evImage = error_response 400 "ValueError" textractErrMsg ∧
    lambda_handler svcOther evImage = error_response 400 "ValueError" unexpectedErrMsg :=
  ⟨(claim_C5 svcClientErr evImage _ (.obj [("image", .str "aGVsbG8=")])
      (.bytes [104, 101, 108, 108, 111]) rfl rfl rfl).1 "denied" rfl,
    (claim_C5 svcOther evImage _ (.obj [("image", .str "aGVsbG8=")])
      (.bytes [104, 101, 108, 108, 111]) rfl rfl rfl).2 (.otherError "boom") rfl rfl⟩

/-- C6: for every dict event whose `body` key is absent, or maps to a
falsy value (empty string, `None`, `0`, `False`, empty list or dict), the
handler returns 400 `ValueError` `Missing request body`; the result is the
same constant for every downstream behaviour `svc`, so the downstream
service is never consulted. -/
theorem claim_C6 (kvs : List (String × JValue))
    (h : jlookup kvs "body" = none ∨ ∃ v, jlookup kvs "body" = some v ∧ isFalsy v = true) :
    ∀ svc : DocumentSource → SvcResult,
      lambda_handler svc (.obj kvs) = error_response 400 "ValueError" missingBodyMsg := by
  intro svc
  unfold lambda_handler handlerCore dispatchResult getBody pyContains pyGetItem
  rcases h with h | ⟨v, hv, hf⟩
  · simp [h, PyExc.isValueError, PyExc.pyStr]
  · simp [hv, hf, PyExc.isValueError, PyExc.pyStr]

/-- C6, witness: the theorem applied at the empty event (no `body` key). -/
theorem claim_C6_witness :
    (jlookup [] "body" = none ∨
      ∃ v, jlookup ([] : List (String × JValue)) "body" = some v ∧ isFalsy v = true) ∧
    lambda_handler svcStub (.obj []) = error_response 400 "ValueError" missingBodyMsg :=
  ⟨Or.inl rfl, claim_C6 [] (Or.inl rfl) svcStub⟩

/-- C7: for every request reaching a successful downstream call whose
response is a dict, the handler returns status 200 with the JSON content
type, and the body is exactly the serialization of the one-key object
`Blocks ↦ blocks` with the downstream blocks passed through unmodified; a
response dict without a `Blocks` key yields the empty list there. -/
theorem claim_C7 (svc : DocumentSource → SvcResult) (ev : JValue) (s : String)
    (rb : JValue) (src : DocumentSource) (rkvs : List (String × JValue))
    (hb : getBody ev = .ok (.str s))
    (hp : jsonParse s = some rb)
    (hr : resolveSource rb = .ok src)
    (hsvc : svc src = .retVal (.obj rkvs)) :
    (∀ blocks, jlookup rkvs "Blocks" = some blocks →
      lambda_handler svc ev =
        { statusCode := 200, headers := ctJsonHeaders,
          body := jsonDumps (.obj [("Blocks", blocks)]) }) ∧
    (jlookup rkvs "Blocks" = none →
      lambda_handler svc ev =
        { statusCode := 200, headers := ctJsonHeaders,
          body := jsonDumps (.obj [("Blocks", .arr [])]) }) := by
  constructor
  · intro blocks hbl
    unfold lambda_handler handlerCore dispatchResult jsonLoads callService textractTry
    rw [hb]
    simp [hp, hr, hsvc, hbl, successResponse]
  · intro hbl
    unfold lambda_handler handlerCore dispatchResult jsonLoads callService textractTry
    rw [hb]
    simp [hp, hr, hsvc, hbl, successResponse]

/-- C7, witness: the theorem applied at the concrete image event against a
downstream returning one block, and against one whose response lacks the
`Blocks` key. -/
theorem claim_C7_witness :
    lambda_handler svcBlocks evImage =
      { statusCode := 200, headers := ctJsonHeaders,
        body := jsonDumps (.obj [("Blocks", .arr [.obj [("Text", .str "hi")]])]) } ∧
    lambda_handler svcNoBlocks evImage =
      { statusCode := 200, headers := ctJsonHeaders,
        body := jsonDumps (.obj [("Blocks", .arr [])]) } :=
  ⟨(claim_C7 svcBlocks evImage _ (.obj [("image", .str "aGVsbG8=")])
      (.bytes [104, 101, 108, 108, 111]) [("Blocks", .arr [.obj [("Text", .str "hi")]])]
      rfl rfl rfl rfl).1 _ rfl,
    (claim_C7 svcNoBlocks evImage _ (.obj [("image", .str "aGVsbG8=")])
      (.bytes [104, 101, 108, 108, 111]) [("Meta", .num 1)] rfl rfl rfl rfl).2 rfl⟩

/-- C8: `error_response` (a pure function in the source — it performs no
I/O and reads no state) returns, for all arguments, the envelope with
exactly the given status code, the JSON content type, and a body
serializing exactly the two keys `Error` and `ErrorMessage`; and it is the
sole constructor of non-200 responses: every handler output is the 200
success envelope, a 400 `ValueError` envelope built by `error_response`,
or the 500 `InternalServerError` envelope built by `error_response`. -/
theorem claim_C8 :
    (∀ (sc : Nat) (k m : String),
      (error_response sc k m).statusCode = sc ∧
      (error_response sc k m).headers = ctJsonHeaders ∧
      (error_response sc k m).body =
        jsonDumps (.obj [("Error", .str k), ("ErrorMessage", .str m)])) ∧
    (∀ (svc : DocumentSource → SvcResult) (ev : JValue),
      (∃ b, lambda_handler svc ev = successResponse b) ∨
      (∃ m, lambda_handler svc ev = error_response 400 "ValueError" m) ∨
      lambda_handler svc ev = error_response 500 "InternalServerError" internalErrMsg) :=
  ⟨fun _ _ _ => ⟨rfl, rfl, rfl⟩, lambda_handler_cases⟩

/-- C9: with the downstream behaviour fixed, the handler is a function of
the event alone — two evaluations on the identical event yield equal (in
particular byte-identical-body) envelopes.  The embedding is pure by
construction; the source consults no mutable state other than the fixed
client handle, so this is the idempotence the spec claims. -/
theorem claim_C9 (svc : DocumentSource → SvcResult) (ev : JValue) (r1 r2 : Response)
    (h1 : lambda_handler svc ev = r1) (h2 : lambda_handler svc ev = r2) :
    r1 = r2 ∧ r1.body = r2.body := by
  subst h1; subst h2; exact ⟨rfl, rfl⟩

/-- C9, witness: the theorem applied at the empty event with both
evaluation hypotheses discharged by computing the handler. -/
theorem claim_C9_witness :
    error_response 400 "ValueError" missingBodyMsg =
      error_response 400 "ValueError" missingBodyMsg ∧
    (error_response 400 "ValueError" missingBodyMsg).body =
      (error_response 400 "ValueError" missingBodyMsg).body :=
  claim_C9 svcStub (.obj []) _ _ rfl rfl

/-- C10: for every parsed request body (a dict) without the `image` key
whose `S3Object` key maps to a non-dict (string, number, list, boolean or
null), the subscript raises `TypeError`, which the `except KeyError` at
line 50 does not catch, so the outer fallback returns the 500
`InternalServerError` envelope rather than the 400
`Invalid S3Object structure` response. -/
theorem claim_C10 (svc : DocumentSource → SvcResult) (ev : JValue) (s : String)
    (kvs : List (String × JValue)) (v : JValue)
    (hb : getBody ev = .ok (.str s))
    (hp : jsonParse s = some (.obj kvs))
    (hni : jlookup kvs "image" = none)
    (hs3 : jlookup kvs "S3Object" = some v)
    (hnm : ∀ l, v ≠ .obj l) :
    lambda_handler svc ev = error_response 500 "InternalServerError" internalErrMsg := by
  unfold lambda_handler handlerCore dispatchResult jsonLoads resolveSource s3Try
    pyContains pyGetItem
  rw [hb]
  cases v with
  | obj l => exact absurd rfl (hnm l)
  | null => simp [hp, hni, hs3, PyExc.isKeyError, PyExc.isValueError]
  | bool b => simp [hp, hni, hs3, PyExc.isKeyError, PyExc.isValueError]
  | num n => simp [hp, hni, hs3, PyExc.isKeyError, PyExc.isValueError]
  | fnum m e => simp [hp, hni, hs3, PyExc.isKeyError, PyExc.isValueError]
  | str t => simp [hp, hni, hs3, PyExc.isKeyError, PyExc.isValueError]
  | arr xs => simp [hp, hni, hs3, PyExc.isKeyError, PyExc.isValueError]

/-- C10, witness: the theorem applied at the concrete event mapping
`S3Object` to the string `oops`. -/
theorem claim_C10_witness :
    lambda_handler svcStub evS3NotMap =
      error_response 500 "InternalServerError" internalErrMsg :=
  claim_C10 svcStub evS3NotMap _ [("S3Object", .str "oops")] (.str "oops")
    rfl rfl rfl rfl (fun l h => by cases h)
